import Mathlib

/-!
Formal model of `Code/mesh/capsule2D.py` (HADES repository).

The Python class `Capsule2D` computes, from a single `diameter` parameter,
the named control points of a capsule mesh, ten hex blocks, arc/spline edge
interpolants and three boundary patches.  Every attribute set by the class is
a pure function of `diameter` (the pipeline call order is fixed), so each
`self.<attr>` is embedded as a Lean function of `diameter`.  Real (float)
arithmetic is modelled over `ℝ`; `int()` truncation over `ℚ`/`ℤ`.
-/

namespace Capsule2D

/-- Degrees to radians, `np.deg2rad`. -/
noncomputable def deg2rad (t : ℝ) : ℝ := t * Real.pi / 180

/-- `circle(x0, z0, r, teta)`: point on the circle of radius `r` centered at
`(x0, z0)`, at angle `teta` given in degrees (trigonometric direction). -/
noncomputable def circle (x0 z0 r teta : ℝ) : ℝ × ℝ :=
  (x0 + r * Real.cos (deg2rad teta), z0 + r * Real.sin (deg2rad teta))

/-- Coefficient `b` computed in `splines` (`teta0` is already in radians). -/
noncomputable def splineB (x0 teta0 R diameter posZmax : ℝ) : ℝ :=
  (3 / (1 * x0 ^ 2)) *
    (R * Real.sin teta0 + x0 / (3 * Real.tan teta0) - (posZmax / 0.4) * diameter)

/-- Coefficient `a` computed in `splines`. -/
noncomputable def splineA (x0 teta0 R diameter posZmax : ℝ) : ℝ :=
  (1 / (3 * x0 ^ 2)) *
    (-1 / Real.tan teta0 - 2 * splineB x0 teta0 R diameter posZmax * x0)

/-- Coefficient `c` computed in `splines` (fixed to `0.0`). -/
def splineC : ℝ := 0.0

/-- Coefficient `d` computed in `splines`. -/
noncomputable def splineD (diameter posZmax : ℝ) : ℝ := (posZmax / 0.4) * diameter

/-- `splines(x0, x, teta0, R, diameter, posZmax)` evaluated at a single
abscissa `x` (the Python version maps the same cubic over an array). -/
noncomputable def splines (x0 teta0 R diameter posZmax x : ℝ) : ℝ :=
  splineA x0 teta0 R diameter posZmax * x ^ 3 +
    splineB x0 teta0 R diameter posZmax * x ^ 2 +
    splineC * x + splineD diameter posZmax

/-- `self.Nx`. -/
def Nx : ℤ := 41
/-- `self.Ny`. -/
def Ny : ℤ := 1
/-- `self.Nz`. -/
def Nz : ℤ := 121

/-- `self.posXmax`. -/
def posXmax : ℝ := 4.0
/-- `self.negXmax`. -/
def negXmax : ℝ := -2.0
/-- `self.posYmax`. -/
def posYmax : ℝ := 0.1
/-- `self.negYmax`. -/
def negYmax : ℝ := -0.1
/-- `self.posZmax`. -/
def posZmax : ℝ := 4.0
/-- `self.negZmax`. -/
def negZmax : ℝ := 4.0

/-- `self.dteta12`. -/
def dteta12 : ℝ := 170
/-- `self.dteta2`. -/
def dteta2 : ℝ := 155
/-- `self.dteta4`. -/
def dteta4 : ℝ := 75
/-- `self.dteta45`. -/
def dteta45 : ℝ := 60
/-- `self.dteta5`. -/
def dteta5 : ℝ := 45
/-- `self.dteta56`. -/
def dteta56 : ℝ := 23

/-- `self.ex0`. -/
def ex0 : ℝ := 0
/-- `self.ez0`. -/
def ez0 : ℝ := 0
/-- `self.ex1 = -2/0.4 * diameter`. -/
noncomputable def ex1 (diameter : ℝ) : ℝ := -2 / 0.4 * diameter
/-- `self.ez1`. -/
def ez1 : ℝ := 0.0
/-- `self.ex3`. -/
def ex3 : ℝ := 0
/-- `self.ez3 = (posZmax/0.4) * diameter`. -/
noncomputable def ez3 (diameter : ℝ) : ℝ := (posZmax / 0.4) * diameter
/-- `self.ex6 = (posXmax/0.4) * diameter`. -/
noncomputable def ex6 (diameter : ℝ) : ℝ := (posXmax / 0.4) * diameter
/-- `self.ez6`. -/
def ez6 : ℝ := 0

/-- Radius used by `inlet_circle`: `(posXmax - ex1)/0.4 * diameter`. -/
noncomputable def rInlet (diameter : ℝ) : ℝ := (posXmax - ex1 diameter) / 0.4 * diameter

/-- `self.ex12` (from `inlet_circle`). -/
noncomputable def ex12 (diameter : ℝ) : ℝ := (circle (ex6 diameter) ez6 (rInlet diameter) dteta12).1
/-- `self.ez12` (from `inlet_circle`). -/
noncomputable def ez12 (diameter : ℝ) : ℝ := (circle (ex6 diameter) ez6 (rInlet diameter) dteta12).2
/-- `self.ex2` (from `inlet_circle`). -/
noncomputable def ex2 (diameter : ℝ) : ℝ := (circle (ex6 diameter) ez6 (rInlet diameter) dteta2).1
/-- `self.ez2` (from `inlet_circle`). -/
noncomputable def ez2 (diameter : ℝ) : ℝ := (circle (ex6 diameter) ez6 (rInlet diameter) dteta2).2

/-- Radius used by `outlet_circle`: `posXmax/0.4 * diameter`. -/
noncomputable def rOutlet (diameter : ℝ) : ℝ := posXmax / 0.4 * diameter

/-- `self.ex4` (from `outlet_circle`). -/
noncomputable def ex4 (diameter : ℝ) : ℝ := (circle ex0 ez0 (rOutlet diameter) dteta4).1
/-- `self.ez4` (from `outlet_circle`). -/
noncomputable def ez4 (diameter : ℝ) : ℝ := (circle ex0 ez0 (rOutlet diameter) dteta4).2
/-- `self.ex45` (from `outlet_circle`). -/
noncomputable def ex45 (diameter : ℝ) : ℝ := (circle ex0 ez0 (rOutlet diameter) dteta45).1
/-- `self.ez45` (from `outlet_circle`). -/
noncomputable def ez45 (diameter : ℝ) : ℝ := (circle ex0 ez0 (rOutlet diameter) dteta45).2
/-- `self.ex5` (from `outlet_circle`). -/
noncomputable def ex5 (diameter : ℝ) : ℝ := (circle ex0 ez0 (rOutlet diameter) dteta5).1
/-- `self.ez5` (from `outlet_circle`). -/
noncomputable def ez5 (diameter : ℝ) : ℝ := (circle ex0 ez0 (rOutlet diameter) dteta5).2
/-- `self.ex56` (from `outlet_circle`). -/
noncomputable def ex56 (diameter : ℝ) : ℝ := (circle ex0 ez0 (rOutlet diameter) dteta56).1
/-- `self.ez56` (from `outlet_circle`). -/
noncomputable def ez56 (diameter : ℝ) : ℝ := (circle ex0 ez0 (rOutlet diameter) dteta56).2

/-- `np.linspace(a, b, 10)`, i-th sample. -/
noncomputable def linspace10 (a b : ℝ) (i : Fin 10) : ℝ := a + (b - a) * (i : ℕ) / 9

/-- `self.ex23` (from `inlet_spline`): `np.linspace(ex2, 0, 10)`. -/
noncomputable def ex23 (diameter : ℝ) (i : Fin 10) : ℝ := linspace10 (ex2 diameter) 0 i

/-- Radius used by `inlet_spline`: `(4 - ex1)/0.4 * diameter`. -/
noncomputable def rSpline23 (diameter : ℝ) : ℝ := (4 - ex1 diameter) / 0.4 * diameter

/-- `self.ez23` (from `inlet_spline`): cubic evaluated on `ex23`. -/
noncomputable def ez23 (diameter : ℝ) (i : Fin 10) : ℝ :=
  splines (ex2 diameter) (deg2rad dteta2) (rSpline23 diameter) diameter posZmax (ex23 diameter i)

/-- `self.ex34` (from `outlet_spline`): `np.linspace(ex4, 0, 10)`. -/
noncomputable def ex34 (diameter : ℝ) (i : Fin 10) : ℝ := linspace10 (ex4 diameter) 0 i

/-- `self.ez34` (from `outlet_spline`): cubic evaluated on `ex34`. -/
noncomputable def ez34 (diameter : ℝ) (i : Fin 10) : ℝ :=
  splines (ex4 diameter) (deg2rad dteta4) (4 / 0.4 * diameter) diameter posZmax (ex34 diameter i)

/-- Scale factor `ratio = diameter / 0.4` used by `capsule_points`. -/
noncomputable def ratio (diameter : ℝ) : ℝ := diameter / 0.4

/-- `self.cx1`. -/
noncomputable def cx1 (diameter : ℝ) : ℝ := -0.120 * ratio diameter
/-- `self.cz1`. -/
def cz1 : ℝ := 0.0
/-- `self.cx12`. -/
noncomputable def cx12 (diameter : ℝ) : ℝ := -0.107938 * ratio diameter
/-- `self.cz12`. -/
noncomputable def cz12 (diameter : ℝ) : ℝ := 0.068404 * ratio diameter
/-- `self.cx2`. -/
noncomputable def cx2 (diameter : ℝ) : ℝ := -0.080 * ratio diameter
/-- `self.cz2`. -/
noncomputable def cz2 (diameter : ℝ) : ℝ := 0.120 * ratio diameter
/-- `self.cx3`. -/
noncomputable def cx3 (diameter : ℝ) : ℝ := -0.040 * ratio diameter
/-- `self.cz3`. -/
noncomputable def cz3 (diameter : ℝ) : ℝ := 0.160 * ratio diameter
/-- `self.cx4`. -/
def cx4 : ℝ := 0.0
/-- `self.cz4 = diameter / 2`. -/
noncomputable def cz4 (diameter : ℝ) : ℝ := diameter / 2
/-- `self.cx5`. -/
noncomputable def cx5 (diameter : ℝ) : ℝ := 0.080 * ratio diameter
/-- `self.cz5`. -/
noncomputable def cz5 (diameter : ℝ) : ℝ := 0.120 * ratio diameter
/-- `self.cx6`. -/
noncomputable def cx6 (diameter : ℝ) : ℝ := 0.080 * ratio diameter
/-- `self.cz6`. -/
noncomputable def cz6 (diameter : ℝ) : ℝ := 0.000 * ratio diameter

/-- `self.ex67 = +self.ex56` (from `bottom_points`). -/
noncomputable def ex67 (diameter : ℝ) : ℝ := ex56 diameter
/-- `self.ez67 = -self.ez56`. -/
noncomputable def ez67 (diameter : ℝ) : ℝ := -ez56 diameter
/-- `self.ex7 = +self.ex5`. -/
noncomputable def ex7 (diameter : ℝ) : ℝ := ex5 diameter
/-- `self.ez7 = -self.ez5`. -/
noncomputable def ez7 (diameter : ℝ) : ℝ := -ez5 diameter
/-- `self.ex78 = +self.ex45`. -/
noncomputable def ex78 (diameter : ℝ) : ℝ := ex45 diameter
/-- `self.ez78 = -self.ez45`. -/
noncomputable def ez78 (diameter : ℝ) : ℝ := -ez45 diameter
/-- `self.ex8 = +self.ex4`. -/
noncomputable def ex8 (diameter : ℝ) : ℝ := ex4 diameter
/-- `self.ez8 = -self.ez4`. -/
noncomputable def ez8 (diameter : ℝ) : ℝ := -ez4 diameter
/-- `self.ex89 = +self.ex34` (pointwise on the 10-point array). -/
noncomputable def ex89 (diameter : ℝ) (i : Fin 10) : ℝ := ex34 diameter i
/-- `self.ez89 = -self.ez34` (pointwise). -/
noncomputable def ez89 (diameter : ℝ) (i : Fin 10) : ℝ := -ez34 diameter i
/-- `self.ex9 = +self.ex3`. -/
def ex9 (diameter : ℝ) : ℝ := ex3
/-- `self.ez9 = -self.ez3`. -/
noncomputable def ez9 (diameter : ℝ) : ℝ := -ez3 diameter
/-- `self.ex910 = +self.ex23` (pointwise). -/
noncomputable def ex910 (diameter : ℝ) (i : Fin 10) : ℝ := ex23 diameter i
/-- `self.ez910 = -self.ez23` (pointwise). -/
noncomputable def ez910 (diameter : ℝ) (i : Fin 10) : ℝ := -ez23 diameter i
/-- `self.ex10 = +self.ex2`. -/
noncomputable def ex10 (diameter : ℝ) : ℝ := ex2 diameter
/-- `self.ez10 = -self.ez2`. -/
noncomputable def ez10 (diameter : ℝ) : ℝ := -ez2 diameter
/-- `self.ex1011 = +self.ex12`. -/
noncomputable def ex1011 (diameter : ℝ) : ℝ := ex12 diameter
/-- `self.ez1011 = -self.ez12`. -/
noncomputable def ez1011 (diameter : ℝ) : ℝ := -ez12 diameter
/-- `self.cx7 = +self.cx5`. -/
noncomputable def cx7 (diameter : ℝ) : ℝ := cx5 diameter
/-- `self.cz7 = -self.cz5`. -/
noncomputable def cz7 (diameter : ℝ) : ℝ := -cz5 diameter
/-- `self.cx8 = +self.cx4`. -/
def cx8 (diameter : ℝ) : ℝ := cx4
/-- `self.cz8 = -self.cz4`. -/
noncomputable def cz8 (diameter : ℝ) : ℝ := -cz4 diameter
/-- `self.cx9 = +self.cx3`. -/
noncomputable def cx9 (diameter : ℝ) : ℝ := cx3 diameter
/-- `self.cz9 = -self.cz3`. -/
noncomputable def cz9 (diameter : ℝ) : ℝ := -cz3 diameter
/-- `self.cx10 = +self.cx2`. -/
noncomputable def cx10 (diameter : ℝ) : ℝ := cx2 diameter
/-- `self.cz10 = -self.cz2`. -/
noncomputable def cz10 (diameter : ℝ) : ℝ := -cz2 diameter
/-- `self.cx1011 = +self.cx12`. -/
noncomputable def cx1011 (diameter : ℝ) : ℝ := cx12 diameter
/-- `self.cz1011 = -self.cz12`. -/
noncomputable def cz1011 (diameter : ℝ) : ℝ := -cz12 diameter

/-- Python `int()` applied to an exact rational: truncation toward zero. -/
def pyInt (q : ℚ) : ℤ := if q < 0 then ⌈q⌉ else ⌊q⌋

/-- Angular-span numerators of the ten `add_hexblock` calls (`b1`..`b10`). -/
def zNum : Fin 10 → ℚ := ![87.3, 56.6, 56.6, 113.1, 120, 120, 113.1, 56.6, 56.6, 87.3]

/-- Angular-span denominators of the ten `add_hexblock` calls. -/
def zDen : Fin 10 → ℚ := ![200.5, 200.5, 200.5, 233, 233, 233, 233, 200.5, 200.5, 200.5]

/-- Fixed integer offsets added after `int()` in the ten `add_hexblock` calls
(no offset is written for `b1` and `b10`, i.e. offset `0`). -/
def zOff : Fin 10 → ℤ := ![0, 2, -1, 4, -4, -4, 4, -1, 2, 0]

/-- Circumferential (third-axis) cell count of block `i`:
`int(0.5 * Nz * num/den) + offset` as in `to_blockMesh_dict2`. -/
def cellsZ (i : Fin 10) : ℤ := pyInt (0.5 * (Nz : ℚ) * zNum i / zDen i) + zOff i

/-- Sum of the circumferential cell counts over the ten blocks. -/
def sumCellsZ : ℤ := ((List.finRange 10).map cellsZ).sum

/-- Names of the ten blocks in creation order. -/
def blockNames : List String := ["b1", "b2", "b3", "b4", "b5", "b6", "b7", "b8", "b9", "b10"]

/-- Corner vertex names of the ten `add_hexblock` calls, in source order. -/
def blockVerts : Fin 10 → List String :=
  ![["v2f", "c2f", "c2b", "v2b", "v1f", "c1f", "c1b", "v1b"],
    ["v3f", "c3f", "c3b", "v3b", "v2f", "c2f", "c2b", "v2b"],
    ["v4f", "c4f", "c4b", "v4b", "v3f", "c3f", "c3b", "v3b"],
    ["v5f", "c5f", "c5b", "v5b", "v4f", "c4f", "c4b", "v4b"],
    ["v6f", "c6f", "c6b", "v6b", "v5f", "c5f", "c5b", "v5b"],
    ["v7f", "c7f", "c7b", "v7b", "v6f", "c6f", "c6b", "v6b"],
    ["v8f", "c8f", "c8b", "v8b", "v7f", "c7f", "c7b", "v7b"],
    ["v9f", "c9f", "c9b", "v9b", "v8f", "c8f", "c8b", "v8b"],
    ["v10f", "c10f", "c10b", "v10b", "v9f", "c9f", "c9b", "v9b"],
    ["v1f", "c1f", "c1b", "v1b", "v10f", "c10f", "c10b", "v10b"]]

/-- The ten hex blocks: name, eight corner vertex names, cell-count triple. -/
def blocks : List (String × List String × (ℤ × ℤ × ℤ)) :=
  (List.finRange 10).map fun i =>
    ("b" ++ toString (i.val + 1), blockVerts i, (Nx, Ny, cellsZ i))

/-- Faces of the `inlet` boundary: `(block, face-direction)` pairs, from
`bmd.add_boundary('patch', 'inlet', ...)`. -/
def inletFaces : List (String × String) :=
  [("b1", "w"), ("b2", "w"), ("b3", "w"), ("b8", "w"), ("b9", "w"), ("b10", "w")]

/-- Faces of the `outlet` boundary. -/
def outletFaces : List (String × String) :=
  [("b4", "w"), ("b5", "w"), ("b6", "w"), ("b7", "w")]

/-- Faces of the `wall` boundary. -/
def wallFaces : List (String × String) :=
  [("b1", "e"), ("b2", "e"), ("b3", "e"), ("b4", "e"), ("b5", "e"),
   ("b6", "e"), ("b7", "e"), ("b8", "e"), ("b9", "e"), ("b10", "e")]

/-- The three `add_boundary` calls: kind, patch name, face list. -/
def boundaries : List (String × String × List (String × String)) :=
  [("patch", "inlet", inletFaces), ("patch", "outlet", outletFaces), ("wall", "wall", wallFaces)]

/-- Numeric rounding to 4 decimal places, modelling Python `round(x, 4)` as
applied by `add_vertex` (tie behaviour is irrelevant to the claims proved here). -/
noncomputable def round4 (x : ℝ) : ℝ := ((round (x * 10000) : ℤ) : ℝ) / 10000

/-- One entry of the `basevs` vertex list after `add_vertex` rounding. -/
noncomputable def vtx (name : String) (x y z : ℝ) : String × ℝ × ℝ × ℝ :=
  (name, round4 x, round4 y, round4 z)

/-- The 44 vertices added to the topology by the `basevs` loop, in order. -/
noncomputable def baseVertices (d : ℝ) : List (String × ℝ × ℝ × ℝ) :=
  [vtx "v0f" ex0 posYmax ez0,
   vtx "v1f" (ex1 d) posYmax ez1,
   vtx "v2f" (ex2 d) posYmax (ez2 d),
   vtx "v3f" ex3 posYmax (ez3 d),
   vtx "v4f" (ex4 d) posYmax (ez4 d),
   vtx "v5f" (ex5 d) posYmax (ez5 d),
   vtx "v6f" (ex6 d) posYmax ez6,
   vtx "v0b" ex0 negYmax ez0,
   vtx "v1b" (ex1 d) negYmax ez1,
   vtx "v2b" (ex2 d) negYmax (ez2 d),
   vtx "v3b" ex3 negYmax (ez3 d),
   vtx "v4b" (ex4 d) negYmax (ez4 d),
   vtx "v5b" (ex5 d) negYmax (ez5 d),
   vtx "v6b" (ex6 d) negYmax ez6,
   vtx "c1f" (cx1 d) posYmax cz1,
   vtx "c12f" (cx12 d) posYmax (cz12 d),
   vtx "c2f" (cx2 d) posYmax (cz2 d),
   vtx "c3f" (cx3 d) posYmax (cz3 d),
   vtx "c4f" cx4 posYmax (cz4 d),
   vtx "c5f" (cx5 d) posYmax (cz5 d),
   vtx "c6f" (cx6 d) posYmax (cz6 d),
   vtx "c1b" (cx1 d) negYmax cz1,
   vtx "c12b" (cx12 d) negYmax (cz12 d),
   vtx "c2b" (cx2 d) negYmax (cz2 d),
   vtx "c3b" (cx3 d) negYmax (cz3 d),
   vtx "c4b" cx4 negYmax (cz4 d),
   vtx "c5b" (cx5 d) negYmax (cz5 d),
   vtx "c6b" (cx6 d) negYmax (cz6 d),
   vtx "v7f" (ex7 d) posYmax (ez7 d),
   vtx "v8f" (ex8 d) posYmax (ez8 d),
   vtx "v9f" (ex9 d) posYmax (ez9 d),
   vtx "v10f" (ex10 d) posYmax (ez10 d),
   vtx "v7b" (ex7 d) negYmax (ez7 d),
   vtx "v8b" (ex8 d) negYmax (ez8 d),
   vtx "v9b" (ex9 d) negYmax (ez9 d),
   vtx "v10b" (ex10 d) negYmax (ez10 d),
   vtx "c7f" (cx7 d) posYmax (cz7 d),
   vtx "c8f" (cx8 d) posYmax (cz8 d),
   vtx "c9f" (cx9 d) posYmax (cz9 d),
   vtx "c10f" (cx10 d) posYmax (cz10 d),
   vtx "c7b" (cx7 d) negYmax (cz7 d),
   vtx "c8b" (cx8 d) negYmax (cz8 d),
   vtx "c9b" (cx9 d) negYmax (cz9 d),
   vtx "c10b" (cx10 d) negYmax (cz10 d)]

/-- The 16 `add_arcedge` calls, in source order: endpoint pair, edge name,
and the interpolation midpoint `Vertex` (name, x, y, z).  Note the source
names the midpoint of `outletBack78` with the string `'e78f'` (not `'e78b'`). -/
noncomputable def arcEdges (d : ℝ) : List ((String × String) × String × (String × ℝ × ℝ × ℝ)) :=
  [(("c1f", "c2f"), "capsuleFront12", ("c12f", cx12 d, posYmax, cz12 d)),
   (("c1b", "c2b"), "capsuleBac12", ("c12b", cx12 d, negYmax, cz12 d)),
   (("v1f", "v2f"), "inletFront12", ("e12f", ex12 d, posYmax, ez12 d)),
   (("v1b", "v2b"), "inletBack12", ("e12b", ex12 d, negYmax, ez12 d)),
   (("v4f", "v5f"), "outletFront45", ("e45f", ex45 d, posYmax, ez45 d)),
   (("v4b", "v5b"), "outletBack45", ("e45b", ex45 d, negYmax, ez45 d)),
   (("v5f", "v6f"), "outletFront56", ("e56f", ex56 d, posYmax, ez56 d)),
   (("v5b", "v6b"), "outletBack56", ("e56b", ex56 d, negYmax, ez56 d)),
   (("v6f", "v7f"), "outletFront67", ("e67f", ex67 d, posYmax, ez67 d)),
   (("v6b", "v7b"), "outletBack67", ("e67b", ex67 d, negYmax, ez67 d)),
   (("v7f", "v8f"), "outletFront78", ("e78f", ex78 d, posYmax, ez78 d)),
   (("v7b", "v8b"), "outletBack78", ("e78f", ex78 d, negYmax, ez78 d)),
   (("v10f", "v1f"), "inletFront1011", ("e1011f", ex1011 d, posYmax, ez1011 d)),
   (("v10b", "v1b"), "inletBack1011", ("e1011b", ex1011 d, negYmax, ez1011 d)),
   (("c10f", "c1f"), "capsuleFront1011", ("c1011f", cx1011 d, posYmax, cz1011 d)),
   (("c10b", "c1b"), "capsuleBack1011", ("c1011b", cx1011 d, negYmax, cz1011 d))]

/-- Interpolation vertices of `inletFrontSpline` (`'ifs' + str(i)`). -/
noncomputable def inletSplineF (d : ℝ) : List (String × ℝ × ℝ × ℝ) :=
  (List.finRange 10).map fun i => ("ifs" ++ toString i.val, ex23 d i, posYmax, ez23 d i)

/-- Interpolation vertices of `inletBackSpline` (`'ibs' + str(i)`). -/
noncomputable def inletSplineB (d : ℝ) : List (String × ℝ × ℝ × ℝ) :=
  (List.finRange 10).map fun i => ("ibs" ++ toString i.val, ex23 d i, negYmax, ez23 d i)

/-- Interpolation vertices of `outletFrontSpline` (`'ofs' + str(i)`). -/
noncomputable def outletSplineF (d : ℝ) : List (String × ℝ × ℝ × ℝ) :=
  (List.finRange 10).map fun i => ("ofs" ++ toString i.val, ex34 d i, posYmax, ez34 d i)

/-- Interpolation vertices of `outletBackSpline` (`'obs' + str(i)`). -/
noncomputable def outletSplineB (d : ℝ) : List (String × ℝ × ℝ × ℝ) :=
  (List.finRange 10).map fun i => ("obs" ++ toString i.val, ex34 d i, negYmax, ez34 d i)

/-- Interpolation vertices of `outletFrontSplineBottom`; the source reuses
the `'ofs' + str(i)` names of the top outlet spline. -/
noncomputable def outletSplineFbottom (d : ℝ) : List (String × ℝ × ℝ × ℝ) :=
  (List.finRange 10).map fun i => ("ofs" ++ toString i.val, ex89 d i, posYmax, ez89 d i)

/-- Interpolation vertices of `outletBackSplineBottom` (reuses `'obs'` names). -/
noncomputable def outletSplineBbottom (d : ℝ) : List (String × ℝ × ℝ × ℝ) :=
  (List.finRange 10).map fun i => ("obs" ++ toString i.val, ex89 d i, negYmax, ez89 d i)

/-- Interpolation vertices of `inletFrontSplineb` (reuses `'ifs'` names). -/
noncomputable def inletSplineFb (d : ℝ) : List (String × ℝ × ℝ × ℝ) :=
  (List.finRange 10).map fun i => ("ifs" ++ toString i.val, ex910 d i, posYmax, ez910 d i)

/-- Interpolation vertices of `inletBackSplineb` (reuses `'ibs'` names). -/
noncomputable def inletSplineBb (d : ℝ) : List (String × ℝ × ℝ × ℝ) :=
  (List.finRange 10).map fun i => ("ibs" ++ toString i.val, ex910 d i, negYmax, ez910 d i)

/-- The 8 `add_splineedge` calls, in source order: endpoint pair, edge name,
ordered interpolation vertex list. -/
noncomputable def splineEdges (d : ℝ) :
    List ((String × String) × String × List (String × ℝ × ℝ × ℝ)) :=
  [(("v2f", "v3f"), "inletFrontSpline", inletSplineF d),
   (("v2b", "v3b"), "inletBackSpline", inletSplineB d),
   (("v4f", "v3f"), "outletFrontSpline", outletSplineF d),
   (("v4b", "v3b"), "outletBackSpline", outletSplineB d),
   (("v8f", "v9f"), "outletFrontSplineBottom", outletSplineFbottom d),
   (("v8b", "v9b"), "outletBackSplineBottom", outletSplineBbottom d),
   (("v10f", "v9f"), "inletFrontSplineb", inletSplineFb d),
   (("v10b", "v9b"), "inletBackSplineb", inletSplineBb d)]

/-- Every named point created during one full `to_blockMesh_dict2` run:
the 44 added vertices, the 16 arc-edge midpoints, and the 80 spline-edge
interpolation vertices. -/
noncomputable def namedPoints (d : ℝ) : List (String × ℝ × ℝ × ℝ) :=
  baseVertices d ++ (arcEdges d).map (fun e => e.2.2) ++
    (inletSplineF d ++ inletSplineB d ++ outletSplineF d ++ outletSplineB d ++
      outletSplineFbottom d ++ outletSplineBbottom d ++ inletSplineFb d ++ inletSplineBb d)

/-- Guarded real division, the `Option`-valued total embedding of a Python
division that raises `ZeroDivisionError` on a zero denominator. -/
noncomputable def divGuard (a b : ℝ) : Option ℝ := if b = 0 then none else some (a / b)

/-- Total embedding of `splines` with every division guarded: `none` exactly
when one of the divisions of the source (`x0/(3*tan teta0)`, `3/(1*x0**2)`,
`1/np.tan(teta0)`, `1/(3*x0**2)`) has a zero denominator. -/
noncomputable def splinesChecked (x0 teta0 R diameter posZmax x : ℝ) : Option ℝ := do
  let t1 ← divGuard x0 (3 * Real.tan teta0)
  let t2 ← divGuard 3 (1 * x0 ^ 2)
  let b := t2 * (R * Real.sin teta0 + t1 - (posZmax / 0.4) * diameter)
  let t3 ← divGuard 1 (Real.tan teta0)
  let t4 ← divGuard 1 (3 * x0 ^ 2)
  let a := t4 * (-t3 - 2 * b * x0)
  return a * x ^ 3 + b * x ^ 2 + 0 * x + (posZmax / 0.4) * diameter

/-- Evaluation of the ten circumferential cell counts at the configured
`Nz = 121`. -/
lemma cellsZ_map :
    (List.finRange 10).map cellsZ = [26, 19, 16, 33, 27, 27, 33, 16, 19, 26] := by
  simp only [List.finRange_succ_eq_map, List.finRange_zero, List.map_nil, List.map_cons,
    List.map_map]
  simp only [cellsZ, zNum, zDen, zOff, Nz]
  norm_num
  repeat' apply And.intro
  all_goals rw [pyInt, if_neg (by norm_num)]
  all_goals norm_num

/-- C3: the cubic fitted by `splines` evaluated at `x = 0` equals
`(posZmax/0.4) * diameter` exactly, for all inputs, since the coefficient `c`
is fixed at `0` and `d` at the far-field height. -/
theorem splines_at_zero (x0 teta0 R diameter posZmax : ℝ) :
    splines x0 teta0 R diameter posZmax 0 = (posZmax / 0.4) * diameter := by
  simp [splines, splineC, splineD]

/-- C7: every bottom-half point produced by `bottom_points` reuses the
x-coordinate of its top-half counterpart and negates the z-coordinate
(point 2 on top corresponds to point 10 on bottom, etc.), and negating the
mirrored z-coordinate a second time reproduces the top-half value exactly. -/
theorem bottom_points_mirror (d : ℝ) :
    (ex67 d = ex56 d ∧ ez67 d = -ez56 d ∧ -ez67 d = ez56 d) ∧
    (ex7 d = ex5 d ∧ ez7 d = -ez5 d ∧ -ez7 d = ez5 d) ∧
    (ex78 d = ex45 d ∧ ez78 d = -ez45 d ∧ -ez78 d = ez45 d) ∧
    (ex8 d = ex4 d ∧ ez8 d = -ez4 d ∧ -ez8 d = ez4 d) ∧
    (∀ i, ex89 d i = ex34 d i ∧ ez89 d i = -ez34 d i ∧ -ez89 d i = ez34 d i) ∧
    (ex9 d = ex3 ∧ ez9 d = -ez3 d ∧ -ez9 d = ez3 d) ∧
    (∀ i, ex910 d i = ex23 d i ∧ ez910 d i = -ez23 d i ∧ -ez910 d i = ez23 d i) ∧
    (ex10 d = ex2 d ∧ ez10 d = -ez2 d ∧ -ez10 d = ez2 d) ∧
    (ex1011 d = ex12 d ∧ ez1011 d = -ez12 d ∧ -ez1011 d = ez12 d) ∧
    (cx7 d = cx5 d ∧ cz7 d = -cz5 d ∧ -cz7 d = cz5 d) ∧
    (cx8 d = cx4 ∧ cz8 d = -cz4 d ∧ -cz8 d = cz4 d) ∧
    (cx9 d = cx3 d ∧ cz9 d = -cz3 d ∧ -cz9 d = cz3 d) ∧
    (cx10 d = cx2 d ∧ cz10 d = -cz2 d ∧ -cz10 d = cz2 d) ∧
    (cx1011 d = cx12 d ∧ cz1011 d = -cz12 d ∧ -cz1011 d = cz12 d) := by
  simp only [ex67, ez67, ex7, ez7, ex78, ez78, ex8, ez8, ex89, ez89, ex9, ez9,
    ex910, ez910, ex10, ez10, ex1011, ez1011, cx7, cz7, cx8, cz8, cx9, cz9,
    cx10, cz10, cx1011, cz1011, neg_neg]
  simp

/-- C2 counterexample: at the configured `Nz = 121` the ten circumferential
cell counts sum to `242`, not `121`; no truncation/offset tolerance (at most
`10` lost to the ten truncations plus offsets summing to `+2`) can account for
the difference. -/
theorem sumCellsZ_ne_Nz : sumCellsZ = 242 ∧ sumCellsZ ≠ Nz := by
  have h : sumCellsZ = 242 := by rw [sumCellsZ, cellsZ_map]; norm_num
  exact ⟨h, by rw [h, Nz]; norm_num⟩

/-- C2 (amended): the sum of the circumferential cell counts over the ten
blocks equals exactly twice the configured `Nz`, i.e. `242` for `Nz = 121`
(the ring covers both the top and the bottom half of the domain, each
apportioned from `0.5 * Nz`). -/
theorem sumCellsZ_eq_two_Nz : sumCellsZ = 2 * Nz := by
  rw [sumCellsZ, cellsZ_map, Nz]; norm_num

/-- C6 counterexample: block `b4` (index 3) carries the fixed offset `+4`,
which lies outside the range `-4..+2` stated by the claim. -/
theorem zOff_b4_outside_range : zOff 3 = 4 ∧ ¬ zOff 3 ≤ 2 := by decide

/-- C6 (amended): each block's circumferential cell count is an integer
truncation of its fractional apportionment plus a fixed integer offset, and
every offset lies in the range `-4..+4` inclusive. -/
theorem cellsZ_truncation_offsets :
    (∀ i : Fin 10, cellsZ i = pyInt (0.5 * (Nz : ℚ) * zNum i / zDen i) + zOff i) ∧
    (∀ i : Fin 10, -4 ≤ zOff i ∧ zOff i ≤ 4) :=
  ⟨fun _ => rfl, by decide⟩

/-- C5 counterexample: the pipeline issues 16 `add_arcedge` calls, not 12. -/
theorem arcEdges_count_ne_twelve :
    (arcEdges (0.4 : ℝ)).length = 16 ∧ (arcEdges (0.4 : ℝ)).length ≠ 12 := by
  constructor
  · rfl
  · intro h; simp [arcEdges] at h

/-- C5 (amended): for `diameter = 0.4` the pipeline adds exactly 44 named
vertices, 10 hex blocks, 16 arc edges, 8 spline edges with exactly 10
interpolation points each, and exactly 3 boundary patches named `inlet`,
`outlet` and `wall`. -/
theorem pipeline_artifact_counts :
    (baseVertices (0.4 : ℝ)).length = 44 ∧
    blocks.length = 10 ∧
    (arcEdges (0.4 : ℝ)).length = 16 ∧
    (splineEdges (0.4 : ℝ)).map (fun e => e.2.2.length) =
      [10, 10, 10, 10, 10, 10, 10, 10] ∧
    boundaries.map (fun b => b.2.1) = ["inlet", "outlet", "wall"] := by
  refine ⟨rfl, rfl, rfl, ?_, rfl⟩
  simp [splineEdges, inletSplineF, inletSplineB, outletSplineF, outletSplineB,
    outletSplineFbottom, outletSplineBbottom, inletSplineFb, inletSplineBb]

/-- C8: every block contributes its east (body-touching) face to the `wall`
patch and its west (far-field) face to exactly one of `inlet` or `outlet`
(`b1`,`b2`,`b3`,`b8`,`b9`,`b10` to `inlet`; `b4`..`b7` to `outlet`), so the
three patches together reference every block exactly twice; no block
contributes only a wall face. -/
theorem boundary_cover (bn : String) (h : bn ∈ blockNames) :
    (bn, "e") ∈ wallFaces ∧
    ((bn, "w") ∈ inletFaces ∨ (bn, "w") ∈ outletFaces) ∧
    ((inletFaces ++ outletFaces ++ wallFaces).filter (fun f => f.1 == bn)).length = 2 := by
  fin_cases h <;> decide

/-- Witness for `boundary_cover` at the concrete block `b1`. -/
theorem boundary_cover_witness :
    ("b1" ∈ blockNames) ∧
    (("b1", "e") ∈ wallFaces ∧
      (("b1", "w") ∈ inletFaces ∨ ("b1", "w") ∈ outletFaces) ∧
      ((inletFaces ++ outletFaces ++ wallFaces).filter (fun f => f.1 == "b1")).length = 2) :=
  ⟨by decide, boundary_cover "b1" (by decide)⟩

/-- C1 is violated by the code: in the full Named Point set built for
`diameter = 0.4`, the arc midpoints of `outletFront78` and `outletBack78`
both bear the name `'e78f'` yet differ in their y-coordinate
(`posYmax = 0.1` versus `negYmax = -0.1`). -/
theorem namedPoints_name_collision :
    ¬ (∀ p ∈ namedPoints (0.4 : ℝ), ∀ q ∈ namedPoints (0.4 : ℝ),
        p.1 = q.1 → p.2 = q.2) := by
  intro h
  have h1 : (("e78f", ex78 (0.4 : ℝ), posYmax, ez78 (0.4 : ℝ)) :
      String × ℝ × ℝ × ℝ) ∈ namedPoints (0.4 : ℝ) := by
    rw [namedPoints]
    refine List.mem_append_left _ (List.mem_append_right _ ?_)
    simp [arcEdges]
  have h2 : (("e78f", ex78 (0.4 : ℝ), negYmax, ez78 (0.4 : ℝ)) :
      String × ℝ × ℝ × ℝ) ∈ namedPoints (0.4 : ℝ) := by
    rw [namedPoints]
    refine List.mem_append_left _ (List.mem_append_right _ ?_)
    simp [arcEdges]
  have h3 := h _ h1 _ h2 rfl
  simp only [Prod.ext_iff, true_and, and_true, eq_self_iff_true] at h3
  norm_num [posYmax, negYmax] at h3

/-- Derivative of the fitted cubic at any point. -/
lemma splines_hasDerivAt (x0 teta0 R diameter posZmax x : ℝ) :
    HasDerivAt (fun t => splines x0 teta0 R diameter posZmax t)
      (3 * splineA x0 teta0 R diameter posZmax * x ^ 2 +
        2 * splineB x0 teta0 R diameter posZmax * x + splineC) x := by
  have hA := (hasDerivAt_pow 3 x).const_mul (splineA x0 teta0 R diameter posZmax)
  have hB := (hasDerivAt_pow 2 x).const_mul (splineB x0 teta0 R diameter posZmax)
  have hC := (hasDerivAt_id' x).const_mul splineC
  have h := ((hA.add hB).add hC).add_const (splineD diameter posZmax)
  simp only [splines]
  convert h using 1
  push_cast
  ring

/-- C4 counterexample: at the valid input `x0 = 1`, `teta0 = π/4` (radians),
`R = 0`, `diameter = 0`, `z_far = 0`, the derivative of the fitted cubic at
`x0` is `-1`, not `1/tan(teta0) = 1`. -/
theorem splines_deriv_claim_false :
    (1 : ℝ) ≠ 0 ∧ Real.tan (Real.pi / 4) ≠ 0 ∧
    deriv (fun x => splines 1 (Real.pi / 4) 0 0 0 x) 1 ≠ 1 / Real.tan (Real.pi / 4) := by
  have hB : splineB 1 (Real.pi / 4) 0 0 0 = 1 := by
    rw [splineB, Real.tan_pi_div_four]; norm_num
  have hA : splineA 1 (Real.pi / 4) 0 0 0 = -1 := by
    rw [splineA, hB, Real.tan_pi_div_four]; norm_num
  have hd := (splines_hasDerivAt 1 (Real.pi / 4) 0 0 0 1).deriv
  refine ⟨one_ne_zero, by rw [Real.tan_pi_div_four]; exact one_ne_zero, ?_⟩
  rw [hd, hA, hB, splineC, Real.tan_pi_div_four]
  norm_num

/-- C4 (amended): for every input with `x0 ≠ 0`, the derivative of the fitted
cubic at the starting point `x0` equals `-(1/tan(teta0))` — the sign is
negative, which is the slope of the adjoining circular arc at angle `teta0`. -/
theorem splines_deriv_at_start (x0 teta0 R diameter posZmax : ℝ) (hx0 : x0 ≠ 0) :
    deriv (fun x => splines x0 teta0 R diameter posZmax x) x0 = -(1 / Real.tan teta0) := by
  rw [(splines_hasDerivAt x0 teta0 R diameter posZmax x0).deriv, splineA, splineC]
  field_simp
  ring

/-- Witness for `splines_deriv_at_start` at `x0 = 1`, `teta0 = π/4`. -/
theorem splines_deriv_at_start_witness :
    (1 : ℝ) ≠ 0 ∧
    deriv (fun x => splines 1 (Real.pi / 4) 0 0 0 x) 1 = -(1 / Real.tan (Real.pi / 4)) :=
  ⟨one_ne_zero, splines_deriv_at_start 1 (Real.pi / 4) 0 0 0 one_ne_zero⟩

/-- C9: for `r ≥ 0` the point returned by `circle` lies at distance `r` from
the center, and for `r > 0` its angle from the center, as an angle modulo one
full turn, equals the input angle `teta` (degrees converted to radians). -/
theorem circle_spec (x0 z0 r teta : ℝ) :
    (0 ≤ r →
      Real.sqrt (((circle x0 z0 r teta).1 - x0) ^ 2 + ((circle x0 z0 r teta).2 - z0) ^ 2) = r) ∧
    (0 < r →
      ((Complex.arg (((circle x0 z0 r teta).1 - x0) +
        ((circle x0 z0 r teta).2 - z0) * Complex.I) : ℝ) : Real.Angle) =
        ((deg2rad teta : ℝ) : Real.Angle)) := by
  have hx : (circle x0 z0 r teta).1 - x0 = r * Real.cos (deg2rad teta) := by simp [circle]
  have hz : (circle x0 z0 r teta).2 - z0 = r * Real.sin (deg2rad teta) := by simp [circle]
  constructor
  · intro hr
    rw [hx, hz]
    have hsum : (r * Real.cos (deg2rad teta)) ^ 2 + (r * Real.sin (deg2rad teta)) ^ 2 = r ^ 2 := by
      have h := Real.sin_sq_add_cos_sq (deg2rad teta)
      nlinarith [h]
    rw [hsum, Real.sqrt_sq hr]
  · intro hr
    have hv : (((circle x0 z0 r teta).1 : ℂ) - (x0 : ℂ) +
          (((circle x0 z0 r teta).2 : ℂ) - (z0 : ℂ)) * Complex.I) =
        (r : ℂ) * (↑(Real.Angle.cos ((deg2rad teta : ℝ) : Real.Angle)) +
          ↑(Real.Angle.sin ((deg2rad teta : ℝ) : Real.Angle)) * Complex.I) := by
      rw [Real.Angle.cos_coe, Real.Angle.sin_coe]
      simp only [circle]
      push_cast
      ring
    rw [hv]
    exact Complex.arg_mul_cos_add_sin_mul_I_coe_angle hr _

/-- Witness for `circle_spec` at center `(0,0)`, radius `1`, angle `0`. -/
theorem circle_spec_witness :
    Real.sqrt (((circle 0 0 1 0).1 - 0) ^ 2 + ((circle 0 0 1 0).2 - 0) ^ 2) = 1 ∧
    ((Complex.arg (((circle 0 0 1 0).1 - 0) + ((circle 0 0 1 0).2 - 0) * Complex.I) : ℝ) :
      Real.Angle) = ((deg2rad 0 : ℝ) : Real.Angle) :=
  ⟨(circle_spec 0 0 1 0).1 (by norm_num), (circle_spec 0 0 1 0).2 (by norm_num)⟩

/-- C10: the guarded total embedding of `splines` succeeds, with exactly the
value of the unguarded embedding, precisely when `x0 ≠ 0` and
`tan(teta0) ≠ 0`; for every other input one of the source's divisions has a
zero denominator and the error branch is taken. -/
theorem splinesChecked_spec (x0 teta0 R diameter posZmax x : ℝ) :
    splinesChecked x0 teta0 R diameter posZmax x =
      some (splines x0 teta0 R diameter posZmax x) ↔
    (x0 ≠ 0 ∧ Real.tan teta0 ≠ 0) := by
  constructor
  · intro h
    by_contra hc
    rw [not_and_or, not_not, not_not] at hc
    rcases hc with h0 | ht
    · rcases eq_or_ne (3 * Real.tan teta0) 0 with h1 | h1 <;>
        simp [splinesChecked, divGuard, h0, h1] at h
    · simp [splinesChecked, divGuard, ht] at h
  · rintro ⟨hx, ht⟩
    have h1 : (3 : ℝ) * Real.tan teta0 ≠ 0 := by simp [ht]
    have h2 : (1 : ℝ) * x0 ^ 2 ≠ 0 := by simp [hx]
    have h3 : (3 : ℝ) * x0 ^ 2 ≠ 0 := by simp [hx]
    simp only [splinesChecked, divGuard, if_neg h1, if_neg h2, if_neg ht, if_neg h3,
      Option.bind_eq_bind, Option.some_bind, Option.pure_def, Option.some_inj]
    rw [splines, splineA, splineB, splineC, splineD]
    ring

end Capsule2D
